import Mathlib

/-!
Verification development for the MyDisassembler single-instruction decoder.

The decoder pipeline lives in src/src/state.h (struct State) and the shared
enumerations and helper tables in src/src/constants.h; both are embedded
below as executable Lean definitions.  The repository also references two
headers, modrm.h and table.h (the ModRM / SIB / REX structs, the register
name tables, getRegVal and the OP_LOOKUP / OPERAND_LOOKUP /
TWO_BYTES_OPCODE_PREFIX encoding tables), that are not present under src/;
those parts are modelled from the specification (spec.md sections 3, 4.4,
4.5, 4.7 and 6) and each such definition is marked accordingly.

C++ specifics made explicit in the model:
- std::vector operator[] past the end is undefined behaviour; the model
  surfaces such a read as the distinct outcome Err.outOfBoundsRead, so it
  can never be confused with a thrown runtime_error.
- the thrown runtime errors of state.h are represented by the structured
  errors Err.unexpectedEnd, Err.unknownOpcode, Err.unknownOperandForm.
- std::unordered_map operator[] on a missing key value-initializes the
  mapped enum, which for Mnemonic is its first enumerator MOV; the model
  makes that explicit in mapIndexDefault.
-/

namespace MyDisassembler

/-- Mnemonic enumeration, translated from `enum class Mnemonic` in
src/src/constants.h (lines 20-114).  MOV is the first enumerator, hence the
value produced by value-initialization. -/
inductive Mnemonic where
  | MOV | LEA | ADD | ADC | SUB | SBB | MUL | IMUL | DIV | IDIV
  | INC | DEC | AND | OR | XOR | NOT | NEG | CMP | TEST
  | SAL | SHL | SAR | SHR | RCL | RCR | ROL | ROR
  | JMP | LOOP | JZ | JNZ | JA | JAE | JB | JBE | JG | JGE | JL | JLE
  | JP | JNP | JO | JNO | JS | JC | JCXZ | JECXZ
  | CALL | RET | PUSH | POP
  | MOVSB | MOVSW | MOVSD | REP | REPE | REPNE | CLD | STD
  | LODSB | LODSW | LODSD | STOSB | STOSW | STOSD
  | SCASB | SCASW | SCASD | CMPSB | CMPSW | CMPSD
  | IN | OUT | INSB | INSW | INSD | OUTSB | OUTSW | OUTSD
  | CBW | CWD | CWDE | CDQ | INT21 | LOCK | ENTER | LEAVE
  | NOP | UD2 | CPUID | XCHG | STC | CLC
deriving DecidableEq, Repr, Fintype

/-- `to_string(Mnemonic)` from src/src/constants.h (lines 116-305). -/
def Mnemonic.toStr : Mnemonic → String
  | .MOV => "MOV" | .LEA => "LEA" | .ADD => "ADD" | .ADC => "ADC"
  | .SUB => "SUB" | .SBB => "SBB" | .MUL => "MUL" | .IMUL => "IMUL"
  | .DIV => "DIV" | .IDIV => "IDIV" | .INC => "INC" | .DEC => "DEC"
  | .AND => "AND" | .OR => "OR" | .XOR => "XOR" | .NOT => "NOT"
  | .NEG => "NEG" | .CMP => "CMP" | .TEST => "TEST" | .SAL => "SAL"
  | .SHL => "SHL" | .SAR => "SAR" | .SHR => "SHR" | .RCL => "RCL"
  | .RCR => "RCR" | .ROL => "ROL" | .ROR => "ROR" | .JMP => "JMP"
  | .LOOP => "LOOP" | .JZ => "JZ" | .JNZ => "JNZ" | .JA => "JA"
  | .JAE => "JAE" | .JB => "JB" | .JBE => "JBE" | .JG => "JG"
  | .JGE => "JGE" | .JL => "JL" | .JLE => "JLE" | .JP => "JP"
  | .JNP => "JNP" | .JO => "JO" | .JNO => "JNO" | .JS => "JS"
  | .JC => "JC" | .JCXZ => "JCXZ" | .JECXZ => "JECXZ" | .CALL => "CALL"
  | .RET => "RET" | .PUSH => "PUSH" | .POP => "POP" | .MOVSB => "MOVSB"
  | .MOVSW => "MOVSW" | .MOVSD => "MOVSD" | .REP => "REP" | .REPE => "REPE"
  | .REPNE => "REPNE" | .CLD => "CLD" | .STD => "STD" | .LODSB => "LODSB"
  | .LODSW => "LODSW" | .LODSD => "LODSD" | .STOSB => "STOSB"
  | .STOSW => "STOSW" | .STOSD => "STOSD" | .SCASB => "SCASB"
  | .SCASW => "SCASW" | .SCASD => "SCASD" | .CMPSB => "CMPSB"
  | .CMPSW => "CMPSW" | .CMPSD => "CMPSD" | .IN => "IN" | .OUT => "OUT"
  | .INSB => "INSB" | .INSW => "INSW" | .INSD => "INSD"
  | .OUTSB => "OUTSB" | .OUTSW => "OUTSW" | .OUTSD => "OUTSD"
  | .CBW => "CBW" | .CWD => "CWD" | .CWDE => "CWDE" | .CDQ => "CDQ"
  | .INT21 => "INT21" | .LOCK => "LOCK" | .ENTER => "ENTER"
  | .LEAVE => "LEAVE" | .NOP => "NOP" | .UD2 => "UD2" | .CPUID => "CPUID"
  | .XCHG => "XCHG" | .STC => "STC" | .CLC => "CLC"

/-- Operand-encoding forms, `enum class OpEnc` in src/src/constants.h
(line 11). -/
inductive OpEnc where
  | I | D | M | O | NP | MI | M1 | MR | RM | RMI | OI
deriving DecidableEq, Repr

/-- `hasModrm(OpEnc)` from src/src/constants.h (lines 380-405). -/
def hasModrm : OpEnc → Bool
  | .I => false
  | .D => false
  | .M => true
  | .O => false
  | .NP => false
  | .MI => true
  | .M1 => true
  | .MR => true
  | .RM => true
  | .RMI => true
  | .OI => false

/-- `enum class Prefix` from src/src/constants.h (lines 13-18): the
prefix-class tag NONE / P66 / REXW / REX used in every table key.  Named
PrefixClass as in the spec. -/
inductive PrefixClass where
  | NONE | P66 | REXW | REX
deriving DecidableEq, Repr

/-- Operand kinds, `enum class Operand` from src/src/constants.h (line 9). -/
inductive Operand where
  | one | imm8 | imm16 | imm32 | imm64 | reg | rm | al | ax | eax | rax | moff
deriving DecidableEq, Repr

/-- `to_string(Operand)` from src/src/constants.h (lines 357-378); note the
source's switch has no cases for imm64, al, ax, rax, which fall to the
default and print "unknown". -/
def Operand.toStr : Operand → String
  | .one => "one"
  | .imm8 => "imm8"
  | .imm16 => "imm16"
  | .imm32 => "imm32"
  | .reg => "reg"
  | .rm => "rm"
  | .eax => "eax"
  | .moff => "moff"
  | _ => "unknown"

/-- `PREFIX_INSTRUCTIONS_BYTES_SET` from src/src/constants.h (lines
443-444): the bytes the prefix-scanning stage consumes; note that it
contains 0x0F. -/
def PREFIX_INSTRUCTIONS_BYTES_SET : List Nat := [0x0F, 0xF0, 0xF2, 0xF3]

/-- Modelled from the spec: `TWO_BYTES_OPCODE_PREFIX` lives in the missing
table.h; spec section 6 fixes it as the set `{0x0F}` of bytes that, as the
first opcode byte, require a second opcode byte. -/
def TWO_BYTES_OPCODE_PREFIX : List Nat := [0x0F]

/-- `SCALE_FACTOR` from src/src/constants.h (line 446). -/
def SCALE_FACTOR : List Nat := [1, 2, 4, 8]

/-- Modelled from the spec: the 32-bit register-name sequence REGISTERS32 of
the missing table.h, indexable by 0..15 (spec section 6; names fixed by the
golden strings of spec section 8, e.g. `r8d` at index 8). -/
def REGISTERS32 : List String :=
  ["eax", "ecx", "edx", "ebx", "esp", "ebp", "esi", "edi",
   "r8d", "r9d", "r10d", "r11d", "r12d", "r13d", "r14d", "r15d"]

/-- Modelled from the spec: the 64-bit register-name sequence REGISTERS64 of
the missing table.h, indexable by 0..15 (spec section 6). -/
def REGISTERS64 : List String :=
  ["rax", "rcx", "rdx", "rbx", "rsp", "rbp", "rsi", "rdi",
   "r8", "r9", "r10", "r11", "r12", "r13", "r14", "r15"]

/-- Modelled from the spec: the 8-bit register-name sequence REGISTERS8 of
the missing table.h (spec section 6; index 0 is `al` per the golden
`MOV  al 0x11`). -/
def REGISTERS8 : List String :=
  ["al", "cl", "dl", "bl", "spl", "bpl", "sil", "dil",
   "r8b", "r9b", "r10b", "r11b", "r12b", "r13b", "r14b", "r15b"]

/-- Modelled from the spec: the 16-bit register-name sequence REGISTERS16 of
the missing table.h (spec section 6; index 0 is `ax` per the golden
`MOV  ax 0x1122`). -/
def REGISTERS16 : List String :=
  ["ax", "cx", "dx", "bx", "sp", "bp", "si", "di",
   "r8w", "r9w", "r10w", "r11w", "r12w", "r13w", "r14w", "r15w"]

/-- Association-list lookup standing in for std::unordered_map::find /
::at; key order is irrelevant for the distinct-key tables used here. -/
def lookupA {α β : Type} [DecidableEq α] : List (α × β) → α → Option β
  | [], _ => none
  | (k, v) :: rest, key => if key = k then some v else lookupA rest key

/-- C++ `map[key]` on a `std::unordered_map<int, Mnemonic>`: a missing key
value-initializes the mapped Mnemonic, i.e. yields the first enumerator
MOV (src/src/state.h lines 158-161 rely on this for the wildcard key -1). -/
def mapIndexDefault (m : List (Int × Mnemonic)) (k : Int) : Mnemonic :=
  (lookupA m k).getD Mnemonic.MOV

/-- Row type of OP_LOOKUP: ModRM.reg digit (or the wildcard -1) to
mnemonic. -/
abbrev Reg2Mnem := List (Int × Mnemonic)

/-- Key/value shape of the OP_LOOKUP encoding table (spec section 6). -/
abbrev OpLookupT := List ((PrefixClass × Int) × Reg2Mnem)

/-- Key/value shape of the OPERAND_LOOKUP encoding table (spec
section 6). -/
abbrev OperandLookupT :=
  List ((PrefixClass × Mnemonic × Int) × (OpEnc × List String × List Operand))

/-- REX prefix flags; the byte layout 0100|W|R|X|B is documented in
src/src/state.h line 100, the flag struct itself is in the missing modrm.h
(spec section 3). -/
structure REX where
  rexW : Bool
  rexR : Bool
  rexX : Bool
  rexB : Bool
deriving DecidableEq, Repr

/-- Decompose a REX byte 0100|W|R|X|B into its four flags. -/
def REX.ofByte (b : Nat) : REX :=
  { rexW := (b >>> 3) &&& 1 = 1
    rexR := (b >>> 2) &&& 1 = 1
    rexX := (b >>> 1) &&& 1 = 1
    rexB := b &&& 1 = 1 }

/-- The all-clear REX flag value. -/
def REX.zero : REX := ⟨false, false, false, false⟩

/-- Modelled from the spec: the ModRM struct of the missing modrm.h.  Spec
section 4.4 fixes the derived state: regVal = reg | (REX.R ? 8 : 0),
rmExt = rm | (REX.B ? 8 : 0), hasSib = (mod ≠ 11) ∧ (rm = 100),
hasDisp8 = (mod = 01) ∧ ¬hasSib,
hasDisp32 = ((mod = 10) ∧ ¬hasSib) ∨ ((mod = 00) ∧ (rm = 101)). -/
structure ModRM where
  modByte : Nat
  regVal : Nat
  rmRaw : Nat
  rmExt : Nat
  hasSib : Bool
  hasDisp8 : Bool
  hasDisp32 : Bool
deriving DecidableEq, Repr

/-- Modelled from the spec: ModRM construction from the raw byte and the
REX flags (spec sections 3 and 4.4). -/
def ModRM.ofByte (b : Nat) (r : REX) : ModRM :=
  let modv := b >>> 6
  let reg3 := (b >>> 3) &&& 7
  let rm3 := b &&& 7
  let sib := decide (modv ≠ 3 ∧ rm3 = 4)
  { modByte := modv
    regVal := reg3 + (if r.rexR then 8 else 0)
    rmRaw := rm3
    rmExt := rm3 + (if r.rexB then 8 else 0)
    hasSib := sib
    hasDisp8 := decide (modv = 1) && !sib
    hasDisp32 := (decide (modv = 2) && !sib) || decide (modv = 0 ∧ rm3 = 5) }

/-- Modelled from the spec: ModRM effective-address rendering without SIB,
following the case table of spec section 4.4.  Register-direct operands are
rendered from the 32-bit table as in the goldens of spec section 8 (the
operand-kind width refinement of section 4.7 is outside the claims proved
here). -/
def ModRM.getAddrMode (m : ModRM) (_operand : Operand)
    (d8 d32 : String) : String :=
  if m.modByte = 3 then
    REGISTERS32.getD m.rmExt ""
  else if m.modByte = 0 then
    if m.rmRaw = 5 then d32
    else "[" ++ REGISTERS64.getD m.rmExt "" ++ "]"
  else if m.modByte = 1 then
    "[" ++ REGISTERS64.getD m.rmExt "" ++ " + " ++ d8 ++ "]"
  else
    "[" ++ REGISTERS64.getD m.rmExt "" ++ " + " ++ d32 ++ "]"

/-- Modelled from the spec: the `reg` slot rendering of modrm.h; spec
section 4.7 selects the name by the REX-extended reg value, 32-bit names
per the goldens of spec section 8 (`r8d` for regVal 8). -/
def ModRM.getReg (m : ModRM) (_operand : Operand) : String :=
  REGISTERS32.getD m.regVal ""

/-- Modelled from the spec: the SIB struct of the missing modrm.h.  Spec
section 4.5 fixes indexExt = index | (REX.X ? 8 : 0), baseExt = base |
(REX.B ? 8 : 0), index suppression for index = 100 without REX.X, base
suppression for base = 101 with mod = 00, and the displacement carry-over
mod = 01 ⇒ disp8, mod = 10 ⇒ disp32.  baseByte keeps the raw 3-bit base
field, which src/src/state.h compares against 5. -/
structure SIB where
  scaleByte : Nat
  indexExt : Nat
  baseByte : Nat
  baseExt : Nat
  indexSuppressed : Bool
  baseSuppressed : Bool
  hasDisp8 : Bool
  hasDisp32 : Bool
deriving DecidableEq, Repr

/-- Modelled from the spec: SIB construction from the raw byte, the ModRM
mod field and the REX flags (spec section 4.5). -/
def SIB.ofByte (b modv : Nat) (r : REX) : SIB :=
  let idx3 := (b >>> 3) &&& 7
  let base3 := b &&& 7
  { scaleByte := b >>> 6
    indexExt := idx3 + (if r.rexX then 8 else 0)
    baseByte := base3
    baseExt := base3 + (if r.rexB then 8 else 0)
    indexSuppressed := decide (idx3 = 4) && !(decide r.rexX = true)
    baseSuppressed := decide (base3 = 5 ∧ modv = 0)
    hasDisp8 := decide (modv = 1)
    hasDisp32 := decide (modv = 2) || decide (modv = 0 ∧ base3 = 5) }

/-- Modelled from the spec: SIB effective-address rendering, following the
case table of spec section 4.5 (displacement first, then base, then
index * scale, matching the goldens such as
`[1 + rax + rax * 1]` and `[0x00008000 + rax + rax * 1]`). -/
def SIB.getAddr (s : SIB) (_operand : Operand) (d8 d32 : String) : String :=
  let scale := SCALE_FACTOR.getD s.scaleByte 1
  let idxPart :=
    if s.indexSuppressed then ""
    else " + " ++ REGISTERS64.getD s.indexExt "" ++ " * " ++ toString scale
  if s.baseSuppressed then
    if s.indexSuppressed then d32
    else "[" ++ d32 ++ idxPart ++ "]"
  else
    let basePart := REGISTERS64.getD s.baseExt ""
    if s.hasDisp8 then "[" ++ d8 ++ " + " ++ basePart ++ idxPart ++ "]"
    else if s.hasDisp32 then "[" ++ d32 ++ " + " ++ basePart ++ idxPart ++ "]"
    else "[" ++ basePart ++ idxPart ++ "]"

/-- Modelled from the spec: `getRegVal` of the missing modrm.h extracts the
3-bit reg field of a ModR/M byte (spec section 3: `(mod: 2b, reg: 3b,
rm: 3b)`); used on a nonnegative int in src/src/state.h line 157. -/
def getRegVal (b : Int) : Int := ((b.toNat >>> 3) &&& 7 : Nat)

/-- Modelled from the spec: the operand-kind predicates of the missing
modrm.h, following spec section 4.7: `one` is the literal operand printed
via to_string; al/ax/eax/rax and reg are register slots; rm is the ModR/M
r/m slot; imm8..imm64 are immediates; the width predicates classify the
kind as 8/16/32/64 bit ("The width is chosen from whether the operand kind
is 8/16/32/64"). -/
def isA_REG (o : Operand) : Bool := o == .one

/-- Modelled from the spec: see isA_REG. -/
def isRM (o : Operand) : Bool := o == .rm

/-- Modelled from the spec: see isA_REG. -/
def isREG (o : Operand) : Bool :=
  o == .reg || o == .al || o == .ax || o == .eax || o == .rax

/-- Modelled from the spec: see isA_REG. -/
def isIMM (o : Operand) : Bool :=
  o == .imm8 || o == .imm16 || o == .imm32 || o == .imm64

/-- Modelled from the spec: see isA_REG. -/
def is8Bit (o : Operand) : Bool := o == .al || o == .imm8

/-- Modelled from the spec: see isA_REG. -/
def is16Bit (o : Operand) : Bool := o == .ax || o == .imm16

/-- Modelled from the spec: see isA_REG. -/
def is32Bit (o : Operand) : Bool := o == .eax || o == .imm32

/-- Modelled from the spec: see isA_REG. -/
def is64Bit (o : Operand) : Bool := o == .rax || o == .imm64

/-- Decimal parse standing in for std::stoi on the numeric strings baked
into the tables' residual operands. -/
def decStr (s : String) : Nat :=
  s.toList.foldl (fun n c => n * 10 + (c.toNat - 48)) 0

/-- Lower-case hex digit, as printed by std::hex. -/
def hexDigit (n : Nat) : Char :=
  if n < 10 then Char.ofNat (48 + n) else Char.ofNat (87 + n)

/-- Two-digit zero-padded lower-case hex of a byte, as printed by
`std::hex << std::setw(2) << std::setfill('0')`. -/
def hex2 (b : Nat) : String :=
  String.mk [hexDigit ((b / 16) % 16), hexDigit (b % 16)]

/-- Concatenated two-digit hex of a byte list. -/
def hexOfBytes (l : List Nat) : String :=
  l.foldl (fun acc b => acc ++ hex2 b) ""

/-- Pipeline stages, used to tag where a buffer read or a thrown error
happened. -/
inductive Stage where
  | prefixScan | opsizeScan | rexScan | opcodeStage | modrmStage
  | sibStage | dispStage | immStage
deriving DecidableEq, Repr

/-- Decoder outcomes.  outOfBoundsRead marks a C++ out-of-range vector
read (undefined behaviour in the source, surfaced explicitly here);
unexpectedEnd marks the runtime_error thrown at the ModRM / SIB stages;
unknownOpcode and unknownOperandForm mark the two table-lookup
runtime_errors of parseOpecode. -/
inductive Err where
  | outOfBoundsRead (stage : Stage)
  | unexpectedEnd (stage : Stage)
  | unknownOpcode (p : PrefixClass) (op : Int)
  | unknownOperandForm (p : PrefixClass) (m : Mnemonic) (op : Int)
deriving DecidableEq, Repr

/-- The decoder state, translated from `struct State` in src/src/state.h
(lines 16-45).  The C++ member `prefix` is named prefixClass here. -/
structure DState where
  hasREX : Bool
  hasSIB : Bool
  hasDisp8 : Bool
  hasDisp32 : Bool
  curIdx : Nat
  instructionLen : Nat
  prefixOffset : Nat
  prefixInstructionByte : Int
  opcodeByte : Int
  modrmByte : Int
  sibByte : Int
  mnemonic : Mnemonic
  prefixClass : PrefixClass
  rex : REX
  modrm : ModRM
  sib : SIB
  opEnc : OpEnc
  remOps : List String
  operands : List Operand
  disp8 : String
  disp32 : String
  assemblyInstruction : List String
  assemblyOperands : List String
deriving DecidableEq, Repr

/-- A freshly constructed State (src/src/state.h lines 47-56).  The C++
constructor leaves mnemonic, rex, modrm, sib, opEnc and the strings
default-constructed; the model picks their zero values. -/
def DState.initial : DState :=
  { hasREX := false, hasSIB := false, hasDisp8 := false, hasDisp32 := false
    curIdx := 0, instructionLen := 0, prefixOffset := 0
    prefixInstructionByte := -1, opcodeByte := -1, modrmByte := -1
    sibByte := -1
    mnemonic := .MOV, prefixClass := .NONE, rex := REX.zero
    modrm := ModRM.ofByte 0 REX.zero, sib := SIB.ofByte 0 0 REX.zero
    opEnc := .I, remOps := [], operands := [], disp8 := "", disp32 := ""
    assemblyInstruction := [], assemblyOperands := [] }

/-- `State::init` (src/src/state.h lines 58-77).  Faithful to the source:
it does NOT reset rex, modrm, sib, mnemonic, opEnc, disp8 or disp32. -/
def DState.init (st : DState) : DState :=
  { st with
    hasREX := false, hasSIB := false, hasDisp8 := false, hasDisp32 := false
    curIdx := 0, instructionLen := 0, prefixOffset := 0
    prefixInstructionByte := -1, opcodeByte := -1, modrmByte := -1
    sibByte := -1
    prefixClass := .NONE
    remOps := [], operands := []
    assemblyInstruction := [], assemblyOperands := [] }

/-- Read `objectSource[i]`; past the end this is a C++ out-of-range
operator[] (undefined behaviour), surfaced as outOfBoundsRead. -/
def readByte (buf : List Nat) (i : Nat) (stage : Stage) : Except Err Nat :=
  match buf.get? i with
  | some b => .ok b
  | none => .error (.outOfBoundsRead stage)

/-- Read the `n`-byte slice `objectSource[i .. i+n)`; past the end this is
C++ undefined behaviour, surfaced as outOfBoundsRead. -/
def readBytes (buf : List Nat) (i n : Nat) (stage : Stage) :
    Except Err (List Nat) :=
  if i + n ≤ buf.length then .ok ((buf.drop i).take n)
  else .error (.outOfBoundsRead stage)

/-- `State::parsePrefixInstructions` (src/src/state.h lines 87-97):
consumes the start byte when it belongs to PREFIX_INSTRUCTIONS_BYTES_SET
(which includes 0x0F). -/
def parsePrefixInstructions (buf : List Nat) (st : DState) :
    Except Err DState := do
  let startByte ← readByte buf st.curIdx .prefixScan
  if PREFIX_INSTRUCTIONS_BYTES_SET.contains startByte then
    .ok { st with
      prefixInstructionByte := (startByte : Int)
      prefixOffset := 1
      instructionLen := st.instructionLen + 1
      curIdx := st.curIdx + 1 }
  else
    .ok st

/-- `State::parsePrefix` (src/src/state.h lines 79-85): consumes an
optional 0x66 operand-size byte. -/
def parsePrefix66 (buf : List Nat) (st : DState) : Except Err DState := do
  let b ← readByte buf st.curIdx .opsizeScan
  if b = 0x66 then
    .ok { st with
      prefixClass := .P66
      instructionLen := st.instructionLen + 1
      curIdx := st.curIdx + 1 }
  else
    .ok st

/-- `State::parseREX` (src/src/state.h lines 99-113): consumes a byte with
high nibble 4, setting REXW when rexW holds and REX otherwise. -/
def parseREX (buf : List Nat) (st : DState) : Except Err DState := do
  let b ← readByte buf st.curIdx .rexScan
  if b >>> 4 = 4 then
    let r := REX.ofByte b
    .ok { st with
      hasREX := true
      rex := r
      instructionLen := st.instructionLen + 1
      curIdx := st.curIdx + 1
      prefixClass := if r.rexW then .REXW else .REX }
  else
    .ok st

/-- The (prefix, opcode) table lookup with its fallback chain, translated
from src/src/state.h lines 128-147: a REXW miss retries REX (downgrading on
success), a REX miss retries NONE (downgrading on success), anything else
throws.  Note the chain is not transitive: when the class is REXW and both
the REXW and REX rows miss, the `prefix == REX` test of the last branch is
still false, so a NONE row is never consulted. -/
def opLookupChain (opL : OpLookupT) (pfx : PrefixClass) (op : Int) :
    Except Err (Reg2Mnem × PrefixClass) :=
  match lookupA opL (pfx, op) with
  | some r => .ok (r, pfx)
  | none =>
    if pfx = .REXW then
      match lookupA opL (.REX, op) with
      | some r => .ok (r, .REX)
      | none => .error (.unknownOpcode pfx op)
    else if pfx = .REX then
      match lookupA opL (.NONE, op) with
      | some r => .ok (r, .NONE)
      | none => .error (.unknownOpcode pfx op)
    else .error (.unknownOpcode pfx op)

/-- The opcode-byte consumption of `State::parseOpecode` (src/src/state.h
lines 115-126): consume one opcode byte; when it is in
TWO_BYTES_OPCODE_PREFIX consume a second byte and form
`(first << 8) + second`. -/
def consumeOpcodeBytes (buf : List Nat) (st : DState) :
    Except Err DState := do
  let b ← readByte buf st.curIdx .opcodeStage
  let st1 : DState := { st with
    opcodeByte := (b : Int)
    instructionLen := st.instructionLen + 1
    curIdx := st.curIdx + 1 }
  if TWO_BYTES_OPCODE_PREFIX.contains b then do
    let b2 ← readByte buf st1.curIdx .opcodeStage
    pure { st1 with
      opcodeByte := st1.opcodeByte * 256 + (b2 : Int)
      instructionLen := st1.instructionLen + 1
      curIdx := st1.curIdx + 1 }
  else
    pure st1

/-- The mnemonic selection of `State::parseOpecode` (src/src/state.h lines
149-164): peek the next byte (without consuming) as a candidate ModR/M
when one is available, select the mnemonic by its reg field out of the
opcode row (falling back to the wildcard -1, which defaults to MOV via
C++ operator[] when absent), and record the mnemonic text. -/
def selectMnemonic (reg2mnem : Reg2Mnem) (buf : List Nat)
    (st : DState) : DState :=
  let st4 : DState :=
    match buf.get? st.curIdx with
    | some v => { st with modrmByte := (v : Int) }
    | none => st
  let mn : Mnemonic :=
    if st4.modrmByte ≥ 0 then
      match lookupA reg2mnem (getRegVal st4.modrmByte) with
      | some m => m
      | none => mapIndexDefault reg2mnem (-1)
    else
      mapIndexDefault reg2mnem (-1)
  { st4 with
    mnemonic := mn
    assemblyInstruction := st4.assemblyInstruction ++ [mn.toStr] }

/-- The operand-template lookup of `State::parseOpecode` (src/src/state.h
lines 165-178): resolve `(PrefixClass, mnemonic, opcode)` in
OPERAND_LOOKUP, throwing when absent. -/
def lookupOperandTemplate (operL : OperandLookupT) (st : DState) :
    Except Err DState :=
  match lookupA operL (st.prefixClass, st.mnemonic, st.opcodeByte) with
  | some (enc, ro, ops) =>
    .ok { st with opEnc := enc, remOps := ro, operands := ops }
  | none =>
    .error (.unknownOperandForm st.prefixClass st.mnemonic st.opcodeByte)

/-- `State::parseOpecode` (src/src/state.h lines 115-179), composed from
consumeOpcodeBytes, opLookupChain, selectMnemonic and
lookupOperandTemplate in the source's order. -/
def parseOpecode (opL : OpLookupT) (operL : OperandLookupT)
    (buf : List Nat) (st : DState) : Except Err DState := do
  let st2 ← consumeOpcodeBytes buf st
  match opLookupChain opL st2.prefixClass st2.opcodeByte with
  | .error e => .error e
  | .ok (reg2mnem, pfx2) =>
    lookupOperandTemplate operL
      (selectMnemonic reg2mnem buf { st2 with prefixClass := pfx2 })

/-- `State::parseModRM` (src/src/state.h lines 181-191): when the encoding
has a ModR/M byte, consume the peeked byte (throwing when none was
available) and decode it together with the current rex flags. -/
def parseModRM (st : DState) : Except Err DState :=
  if hasModrm st.opEnc then
    if st.modrmByte < 0 then
      .error (.unexpectedEnd .modrmStage)
    else
      .ok { st with
        instructionLen := st.instructionLen + 1
        curIdx := st.curIdx + 1
        modrm := ModRM.ofByte st.modrmByte.toNat st.rex }
  else
    .ok st

/-- `State::parseSIB` (src/src/state.h lines 193-207): when ModR/M signals
SIB, read the SIB byte (throwing when none is available) and decode it with
the ModR/M mod field and the rex flags. -/
def parseSIB (buf : List Nat) (st : DState) : Except Err DState :=
  if hasModrm st.opEnc && st.modrm.hasSib then
    let st1 :=
      match buf.get? st.curIdx with
      | some v => { st with sibByte := (v : Int) }
      | none => st
    if st1.sibByte < 0 then
      .error (.unexpectedEnd .sibStage)
    else
      .ok { st1 with
        sib := SIB.ofByte st1.sibByte.toNat st1.modrm.modByte st1.rex
        instructionLen := st1.instructionLen + 1
        curIdx := st1.curIdx + 1 }
  else
    .ok st

/-- The disp8 condition of `State::parseAddressOffset`, verbatim from
src/src/state.h lines 210-213. -/
def disp8Cond (st : DState) : Bool :=
  (hasModrm st.opEnc && st.modrm.hasDisp8)
  || (hasModrm st.opEnc && st.modrm.hasSib && st.sib.hasDisp8)
  || (hasModrm st.opEnc && st.modrm.hasSib && decide (st.modrm.modByte = 1)
      && decide (st.sib.baseByte = 5))

/-- The disp32 condition of `State::parseAddressOffset`, verbatim from
src/src/state.h lines 220-223. -/
def disp32Cond (st : DState) : Bool :=
  (hasModrm st.opEnc && st.modrm.hasDisp32)
  || (hasModrm st.opEnc && st.modrm.hasSib && st.sib.hasDisp32)
  || (hasModrm st.opEnc && st.modrm.hasSib
      && (decide (st.modrm.modByte = 0) || decide (st.modrm.modByte = 2))
      && decide (st.sib.baseByte = 5))

/-- The disp8 block of `State::parseAddressOffset` (src/src/state.h lines
210-218): under disp8Cond read one byte, rendered as its unsigned decimal
string. -/
def readDisp8Part (buf : List Nat) (st : DState) : Except Err DState :=
  if disp8Cond st then do
    let b ← readByte buf st.curIdx .dispStage
    pure { st with
      disp8 := toString b
      hasDisp8 := true
      instructionLen := st.instructionLen + 1
      curIdx := st.curIdx + 1 }
  else
    pure st

/-- The disp32 block of `State::parseAddressOffset` (src/src/state.h lines
220-239): under disp32Cond read four bytes, reverse them, and render as 0x
plus eight zero-padded hex digits. -/
def readDisp32Part (buf : List Nat) (st : DState) : Except Err DState :=
  if disp32Cond st then do
    let bs ← readBytes buf st.curIdx 4 .dispStage
    pure { st with
      disp32 := "0x" ++ hexOfBytes bs.reverse
      hasDisp32 := true
      instructionLen := st.instructionLen + 4
      curIdx := st.curIdx + 4 }
  else
    pure st

/-- `State::parseAddressOffset` (src/src/state.h lines 209-240): the disp8
block followed by the disp32 block. -/
def parseAddressOffset (buf : List Nat) (st : DState) :
    Except Err DState := do
  let st1 ← readDisp8Part buf st
  readDisp32Part buf st1

/-- One iteration of the operand loop of `State::decodeSingleInstruction`
(src/src/state.h lines 262-323), followed by the push of the rendered
operand text. -/
def materializeOperand (buf : List Nat) (st : DState) (operand : Operand) :
    Except Err DState := do
  if isA_REG operand then
    .ok { st with assemblyOperands := st.assemblyOperands ++ [operand.toStr] }
  else if isRM operand || isREG operand then
    let v :=
      if hasModrm st.opEnc then
        if isRM operand then st.modrm.getAddrMode operand st.disp8 st.disp32
        else st.modrm.getReg operand
      else
        if is8Bit operand then
          REGISTERS8.getD (decStr (st.remOps.headD "0")) ""
        else if is16Bit operand then
          REGISTERS16.getD (decStr (st.remOps.headD "0")) ""
        else if is32Bit operand then
          REGISTERS32.getD (decStr (st.remOps.headD "0")) ""
        else if is64Bit operand then
          REGISTERS64.getD (decStr (st.remOps.headD "0")) ""
        else ""
    let v :=
      if isRM operand && hasModrm st.opEnc && st.modrm.hasSib then
        st.sib.getAddr operand st.disp8 st.disp32
      else v
    .ok { st with assemblyOperands := st.assemblyOperands ++ [v] }
  else if isIMM operand then
    let immSize : Nat :=
      if operand = .imm64 then 8
      else if operand = .imm32 then 4
      else if operand = .imm16 then 2
      else if operand = .imm8 then 1
      else 0
    let bs ← readBytes buf st.curIdx immSize .immStage
    .ok { st with
      instructionLen := st.instructionLen + immSize
      curIdx := st.curIdx + immSize
      assemblyOperands :=
        st.assemblyOperands ++ ["0x" ++ hexOfBytes bs.reverse] }
  else
    .ok { st with assemblyOperands := st.assemblyOperands ++ [""] }

/-- The operand loop of `State::decodeSingleInstruction` over the operand
template list. -/
def processOperands (buf : List Nat) :
    List Operand → DState → Except Err DState
  | [], st => .ok st
  | operand :: rest, st => do
    let st' ← materializeOperand buf st operand
    processOperands buf rest st'

/-- Result record of a decode: (startIdx, instruction length, mnemonic
text, assembly text), as returned by `State::decodeSingleInstruction`. -/
abbrev DecResult := Nat × Nat × String × String

/-- `State::decodeSingleInstruction` (src/src/state.h lines 243-341):
init, run the pipeline stages in order, materialize the operands, and
assemble the final text.  The returned pair carries the final decoder state
(the C++ State object persists across calls) together with the result
tuple.  The `std::cout` print of state.h line 336 has no counterpart in the
value model. -/
def decodeSingleInstruction (opL : OpLookupT) (operL : OperandLookupT)
    (buf : List Nat) (st0 : DState) (startIdx : Nat) :
    Except Err (DState × DecResult) := do
  let st := { st0.init with curIdx := startIdx }
  let st ← parsePrefixInstructions buf st
  let st ← parsePrefix66 buf st
  let st ← parseREX buf st
  let st ← parseOpecode opL operL buf st
  let st ← parseModRM st
  let st ← parseSIB buf st
  let st ← parseAddressOffset buf st
  let st ← processOperands buf st.operands st
  let ao := st.assemblyOperands.foldl (fun acc a => acc ++ " " ++ a) ""
  let st := { st with assemblyInstruction := st.assemblyInstruction ++ [ao] }
  let out := st.assemblyInstruction.foldl (fun acc a => acc ++ " " ++ a) ""
  .ok (st, (startIdx, st.instructionLen, st.mnemonic.toStr, out))

/-- Modelled from the spec: the OP_LOOKUP rows exercised by the concrete
decodes below; table.h is absent from src/.  Spec section 6 fixes the
shape `map<(PrefixClass, opcodeByte), map<regDigit ∨ wildcard, Mnemonic>>`
and the spec section 8 scenarios fix the rows: 0xB8 → MOV, 0x90 → NOP,
0x01 → ADD, each a wildcard (-1) row under the NONE class. -/
def sampleOpLookup : OpLookupT :=
  [((.NONE, (0xB8 : Int)), [((-1 : Int), .MOV)]),
   ((.NONE, (0x90 : Int)), [((-1 : Int), .NOP)]),
   ((.NONE, (0x01 : Int)), [((-1 : Int), .ADD)])]

/-- Modelled from the spec: the OPERAND_LOOKUP rows matching
sampleOpLookup (spec sections 6, 4.7 and the section 8 goldens):
`B8+rd id` is the opcode-embedded-register OI form with residual register
index "0" and an imm32; 0x90 NOP is NP with no operands; 0x01 is the MR
form rendering the r/m slot before the reg slot. -/
def sampleOperandLookup : OperandLookupT :=
  [((.NONE, .MOV, (0xB8 : Int)), (.OI, ["0"], [.eax, .imm32])),
   ((.NONE, .NOP, (0x90 : Int)), (.NP, [], [])),
   ((.NONE, .ADD, (0x01 : Int)), (.MR, [], [.rm, .reg]))]

/-- The buffer used for the decoder-state-dependence scenario: an ADD with
REX.B (0x41), an ADD with REX.R (0x44), then a plain ADD `01 00` with no
REX byte at offset 8. -/
def staleRexBuf : List Nat :=
  [0x41, 0x01, 0x04, 0x91, 0x44, 0x01, 0x04, 0x91, 0x01, 0x00]

/-- A one-row OP_LOOKUP with only a REX-class row, used to exhibit the
single-step REXW fallback. -/
def rexRowLookup : OpLookupT := [((.REX, (0x90 : Int)), [((-1 : Int), .NOP)])]

/-- A one-row OP_LOOKUP with only a NONE-class row, used to exhibit the
single-step REX fallback and the REXW dead end. -/
def noneRowLookup : OpLookupT := [((.NONE, (0x90 : Int)), [((-1 : Int), .NOP)])]

/-- An OP_LOOKUP whose 0x99 row keys only ModR/M reg digit 3, with no
wildcard entry, used to exhibit the C++ operator[] default. -/
def digitOnlyLookup : OpLookupT := [((.NONE, (0x99 : Int)), [((3 : Int), .SUB)])]

/-- A state about to read a disp8: an RM encoding whose ModR/M byte 0x48
has mod = 01 and rm = 000. -/
def disp8State : DState :=
  { DState.initial with opEnc := .RM, modrm := ModRM.ofByte 0x48 REX.zero }

/-- A state about to read a disp32: an RM encoding whose ModR/M byte 0x80
has mod = 10 and rm = 000. -/
def disp32State : DState :=
  { DState.initial with opEnc := .RM, modrm := ModRM.ofByte 0x80 REX.zero }

/-- Project a decode outcome to its result tuple, dropping the final
decoder state. -/
def resultOf (e : Except Err (DState × DecResult)) : Except Err DecResult :=
  e.map (fun r => r.2)

/-- Project a decode outcome to its final decoder state. -/
def stateOf (e : Except Err (DState × DecResult)) : Option DState :=
  match e with
  | .ok (st, _) => some st
  | .error _ => none

/-- Project a decode outcome to its rendered text. -/
def textOf (e : Except Err (DState × DecResult)) : Option String :=
  match e with
  | .ok (_, _, _, _, t) => some t
  | .error _ => none

/-- The opcode value a parseOpecode outcome worked with: the opcodeByte of
a successful state, or the opcode carried by an unknown-opcode /
unknown-operand-form error. -/
def opcodeOf (e : Except Err DState) : Option Int :=
  match e with
  | .ok st => some st.opcodeByte
  | .error (.unknownOpcode _ op) => some op
  | .error (.unknownOperandForm _ _ op) => some op
  | .error _ => none

/-- The mnemonic a parseOpecode outcome selected: the mnemonic of a
successful state, or the one carried by an unknown-operand-form error
(which is raised after the mnemonic has been selected). -/
def mnemonicOf (e : Except Err DState) : Option Mnemonic :=
  match e with
  | .ok st => some st.mnemonic
  | .error (.unknownOperandForm _ m _) => some m
  | .error _ => none

/-- Length/cursor agreement for a decode outcome: on success the returned
startIdx is the requested one and the final cursor sits exactly
`length` bytes past it; errors are vacuous. -/
def lenConsumedAgree (e : Except Err (DState × DecResult))
    (startIdx : Nat) : Prop :=
  match e with
  | .ok (st, s0, len, _, _) => s0 = startIdx ∧ st.curIdx = startIdx + len
  | .error _ => True

/-- Text-shape agreement for a decode outcome: on success the returned
mnemonic string is the rendered mnemonic and the text is one space, the
mnemonic, one space, then the space-prefixed operand tokens; errors are
vacuous. -/
def textShapeAgree (e : Except Err (DState × DecResult)) : Prop :=
  match e with
  | .ok (st, _, _, m, t) =>
    m = st.mnemonic.toStr ∧
    t = " " ++ st.mnemonic.toStr ++ " "
        ++ st.assemblyOperands.foldl (fun acc a => acc ++ " " ++ a) ""
  | .error _ => True

/-- The byte cursor and the instruction-length counter moved together: the
second state is the first advanced by some k on both counters. -/
def advancesBy (st st' : DState) : Prop :=
  ∃ k, st'.curIdx = st.curIdx + k ∧
    st'.instructionLen = st.instructionLen + k

theorem advancesBy_trans {a b c : DState} (h1 : advancesBy a b)
    (h2 : advancesBy b c) : advancesBy a c := by
  obtain ⟨k1, hc1, hl1⟩ := h1
  obtain ⟨k2, hc2, hl2⟩ := h2
  exact ⟨k1 + k2, by omega, by omega⟩

theorem except_bind_ok {ε α β : Type} {x : Except ε α} {f : α → Except ε β}
    {b : β} (h : x >>= f = .ok b) : ∃ a, x = .ok a ∧ f a = .ok b := by
  cases x with
  | error e => exact Except.noConfusion h
  | ok a => exact ⟨a, rfl, h⟩

theorem parsePrefixInstructions_advances {buf : List Nat} {st st' : DState}
    (h : parsePrefixInstructions buf st = .ok st') : advancesBy st st' := by
  unfold parsePrefixInstructions readByte at h
  cases hg : buf.get? st.curIdx <;> simp only [hg] at h
  · simp only [Bind.bind, Except.bind] at h
    exact absurd h (by simp)
  · simp only [Bind.bind, Except.bind] at h
    split at h <;> cases h
    · exact ⟨1, rfl, rfl⟩
    · exact ⟨0, rfl, rfl⟩

theorem parsePrefix66_advances {buf : List Nat} {st st' : DState}
    (h : parsePrefix66 buf st = .ok st') : advancesBy st st' := by
  unfold parsePrefix66 readByte at h
  cases hg : buf.get? st.curIdx <;> simp only [hg] at h
  · simp only [Bind.bind, Except.bind] at h
    exact absurd h (by simp)
  · simp only [Bind.bind, Except.bind] at h
    split at h <;> cases h
    · exact ⟨1, rfl, rfl⟩
    · exact ⟨0, rfl, rfl⟩

theorem parseREX_advances {buf : List Nat} {st st' : DState}
    (h : parseREX buf st = .ok st') : advancesBy st st' := by
  unfold parseREX readByte at h
  cases hg : buf.get? st.curIdx <;> simp only [hg] at h
  · simp only [Bind.bind, Except.bind] at h
    exact absurd h (by simp)
  · simp only [Bind.bind, Except.bind] at h
    split at h <;> cases h
    · exact ⟨1, rfl, rfl⟩
    · exact ⟨0, rfl, rfl⟩

theorem consumeOpcodeBytes_advances {buf : List Nat} {st st' : DState}
    (h : consumeOpcodeBytes buf st = .ok st') : advancesBy st st' := by
  unfold consumeOpcodeBytes at h
  obtain ⟨b, hb, h⟩ := except_bind_ok h
  split at h
  · obtain ⟨b2, hb2, h⟩ := except_bind_ok h
    cases h
    exact ⟨2, rfl, rfl⟩
  · cases h
    exact ⟨1, rfl, rfl⟩

theorem selectMnemonic_counters (reg2mnem : Reg2Mnem) (buf : List Nat)
    (st : DState) :
    (selectMnemonic reg2mnem buf st).curIdx = st.curIdx ∧
    (selectMnemonic reg2mnem buf st).instructionLen = st.instructionLen := by
  unfold selectMnemonic
  cases buf.get? st.curIdx <;> exact ⟨rfl, rfl⟩

theorem lookupOperandTemplate_counters {operL : OperandLookupT}
    {st st' : DState} (h : lookupOperandTemplate operL st = .ok st') :
    st'.curIdx = st.curIdx ∧ st'.instructionLen = st.instructionLen := by
  unfold lookupOperandTemplate at h
  split at h
  · cases h
    exact ⟨rfl, rfl⟩
  · exact Except.noConfusion h

theorem parseOpecode_advances {opL : OpLookupT} {operL : OperandLookupT}
    {buf : List Nat} {st st' : DState}
    (h : parseOpecode opL operL buf st = .ok st') : advancesBy st st' := by
  unfold parseOpecode at h
  obtain ⟨st2, hst2, h⟩ := except_bind_ok h
  have h2 := consumeOpcodeBytes_advances hst2
  split at h
  · exact Except.noConfusion h
  · rename_i reg2mnem pfx2 heq
    have h3 := lookupOperandTemplate_counters h
    have h4 := selectMnemonic_counters reg2mnem buf { st2 with prefixClass := pfx2 }
    obtain ⟨k, hk1, hk2⟩ := h2
    exact ⟨k, by rw [h3.1, h4.1]; exact hk1, by rw [h3.2, h4.2]; exact hk2⟩

theorem parseModRM_advances {st st' : DState}
    (h : parseModRM st = .ok st') : advancesBy st st' := by
  unfold parseModRM at h
  split at h
  · split at h
    · cases h
    · cases h
      exact ⟨1, rfl, rfl⟩
  · cases h
    exact ⟨0, rfl, rfl⟩

theorem parseSIB_advances {buf : List Nat} {st st' : DState}
    (h : parseSIB buf st = .ok st') : advancesBy st st' := by
  unfold parseSIB at h
  split at h
  · cases hg : buf.get? st.curIdx <;> simp only [hg] at h
    · split at h
      · cases h
      · cases h
        exact ⟨1, rfl, rfl⟩
    · split at h
      · cases h
      · cases h
        exact ⟨1, rfl, rfl⟩
  · cases h
    exact ⟨0, rfl, rfl⟩

theorem readDisp8Part_advances {buf : List Nat} {st st' : DState}
    (h : readDisp8Part buf st = .ok st') : advancesBy st st' := by
  unfold readDisp8Part at h
  split at h
  · obtain ⟨b, hb, h⟩ := except_bind_ok h
    cases h
    exact ⟨1, rfl, rfl⟩
  · cases h
    exact ⟨0, rfl, rfl⟩

theorem readDisp32Part_advances {buf : List Nat} {st st' : DState}
    (h : readDisp32Part buf st = .ok st') : advancesBy st st' := by
  unfold readDisp32Part at h
  split at h
  · obtain ⟨bs, hbs, h⟩ := except_bind_ok h
    cases h
    exact ⟨4, rfl, rfl⟩
  · cases h
    exact ⟨0, rfl, rfl⟩

theorem parseAddressOffset_advances {buf : List Nat} {st st' : DState}
    (h : parseAddressOffset buf st = .ok st') : advancesBy st st' := by
  unfold parseAddressOffset at h
  obtain ⟨st1, h1, h⟩ := except_bind_ok h
  exact advancesBy_trans (readDisp8Part_advances h1) (readDisp32Part_advances h)

theorem materializeOperand_advances {buf : List Nat} {st st' : DState}
    {operand : Operand}
    (h : materializeOperand buf st operand = .ok st') : advancesBy st st' := by
  unfold materializeOperand at h
  split at h
  · cases h
    exact ⟨0, rfl, rfl⟩
  · split at h
    · cases h
      exact ⟨0, rfl, rfl⟩
    · split at h
      · obtain ⟨bs, hbs, h⟩ := except_bind_ok h
        cases h
        exact ⟨_, rfl, rfl⟩
      · cases h
        exact ⟨0, rfl, rfl⟩

theorem processOperands_advances {buf : List Nat} {ops : List Operand}
    {st st' : DState}
    (h : processOperands buf ops st = .ok st') : advancesBy st st' := by
  induction ops generalizing st with
  | nil =>
    unfold processOperands at h
    cases h
    exact ⟨0, rfl, rfl⟩
  | cons o rest ih =>
    unfold processOperands at h
    obtain ⟨stm, hm, h⟩ := except_bind_ok h
    exact advancesBy_trans (materializeOperand_advances hm) (ih h)

theorem parsePrefixInstructions_presAsm {buf : List Nat} {st st' : DState}
    (h : parsePrefixInstructions buf st = .ok st') :
    st'.mnemonic = st.mnemonic ∧
    st'.assemblyInstruction = st.assemblyInstruction ∧
    st'.assemblyOperands = st.assemblyOperands := by
  unfold parsePrefixInstructions at h
  obtain ⟨b, hb, h⟩ := except_bind_ok h
  split at h <;> cases h <;> exact ⟨rfl, rfl, rfl⟩

theorem parsePrefix66_presAsm {buf : List Nat} {st st' : DState}
    (h : parsePrefix66 buf st = .ok st') :
    st'.mnemonic = st.mnemonic ∧
    st'.assemblyInstruction = st.assemblyInstruction ∧
    st'.assemblyOperands = st.assemblyOperands := by
  unfold parsePrefix66 at h
  obtain ⟨b, hb, h⟩ := except_bind_ok h
  split at h <;> cases h <;> exact ⟨rfl, rfl, rfl⟩

theorem parseREX_presAsm {buf : List Nat} {st st' : DState}
    (h : parseREX buf st = .ok st') :
    st'.mnemonic = st.mnemonic ∧
    st'.assemblyInstruction = st.assemblyInstruction ∧
    st'.assemblyOperands = st.assemblyOperands := by
  unfold parseREX at h
  obtain ⟨b, hb, h⟩ := except_bind_ok h
  split at h <;> cases h <;> exact ⟨rfl, rfl, rfl⟩

theorem consumeOpcodeBytes_presAsm {buf : List Nat} {st st' : DState}
    (h : consumeOpcodeBytes buf st = .ok st') :
    st'.mnemonic = st.mnemonic ∧
    st'.assemblyInstruction = st.assemblyInstruction ∧
    st'.assemblyOperands = st.assemblyOperands := by
  unfold consumeOpcodeBytes at h
  obtain ⟨b, hb, h⟩ := except_bind_ok h
  split at h
  · obtain ⟨b2, hb2, h⟩ := except_bind_ok h
    cases h
    exact ⟨rfl, rfl, rfl⟩
  · cases h
    exact ⟨rfl, rfl, rfl⟩

theorem selectMnemonic_asm (reg2mnem : Reg2Mnem) (buf : List Nat)
    (st : DState) :
    (selectMnemonic reg2mnem buf st).assemblyInstruction
      = st.assemblyInstruction
        ++ [(selectMnemonic reg2mnem buf st).mnemonic.toStr] ∧
    (selectMnemonic reg2mnem buf st).assemblyOperands
      = st.assemblyOperands := by
  unfold selectMnemonic
  cases buf.get? st.curIdx <;> exact ⟨rfl, rfl⟩

theorem lookupOperandTemplate_presAsm {operL : OperandLookupT}
    {st st' : DState} (h : lookupOperandTemplate operL st = .ok st') :
    st'.mnemonic = st.mnemonic ∧
    st'.assemblyInstruction = st.assemblyInstruction ∧
    st'.assemblyOperands = st.assemblyOperands := by
  unfold lookupOperandTemplate at h
  split at h
  · cases h
    exact ⟨rfl, rfl, rfl⟩
  · exact Except.noConfusion h

theorem parseOpecode_asm {opL : OpLookupT} {operL : OperandLookupT}
    {buf : List Nat} {st st' : DState}
    (h : parseOpecode opL operL buf st = .ok st') :
    st'.assemblyInstruction
      = st.assemblyInstruction ++ [st'.mnemonic.toStr] ∧
    st'.assemblyOperands = st.assemblyOperands := by
  unfold parseOpecode at h
  obtain ⟨st2, h2, h⟩ := except_bind_ok h
  obtain ⟨hm2, hai2, hao2⟩ := consumeOpcodeBytes_presAsm h2
  split at h
  · exact Except.noConfusion h
  · rename_i reg2mnem pfx2 heq
    obtain ⟨hml, hail, haol⟩ := lookupOperandTemplate_presAsm h
    have hsel := selectMnemonic_asm reg2mnem buf { st2 with prefixClass := pfx2 }
    refine ⟨?_, ?_⟩
    · rw [hail, hsel.1, hml]
      exact congrArg (fun l => l ++ _) hai2
    · rw [haol, hsel.2]
      exact hao2

theorem parseModRM_presAsm {st st' : DState}
    (h : parseModRM st = .ok st') :
    st'.mnemonic = st.mnemonic ∧
    st'.assemblyInstruction = st.assemblyInstruction ∧
    st'.assemblyOperands = st.assemblyOperands := by
  unfold parseModRM at h
  split at h
  · split at h
    · exact Except.noConfusion h
    · cases h
      exact ⟨rfl, rfl, rfl⟩
  · cases h
    exact ⟨rfl, rfl, rfl⟩

theorem parseSIB_presAsm {buf : List Nat} {st st' : DState}
    (h : parseSIB buf st = .ok st') :
    st'.mnemonic = st.mnemonic ∧
    st'.assemblyInstruction = st.assemblyInstruction ∧
    st'.assemblyOperands = st.assemblyOperands := by
  unfold parseSIB at h
  split at h
  · cases hg : buf.get? st.curIdx <;> simp only [hg] at h <;>
      split at h
    · exact Except.noConfusion h
    · cases h
      exact ⟨rfl, rfl, rfl⟩
    · exact Except.noConfusion h
    · cases h
      exact ⟨rfl, rfl, rfl⟩
  · cases h
    exact ⟨rfl, rfl, rfl⟩

theorem readDisp8Part_presAsm {buf : List Nat} {st st' : DState}
    (h : readDisp8Part buf st = .ok st') :
    st'.mnemonic = st.mnemonic ∧
    st'.assemblyInstruction = st.assemblyInstruction ∧
    st'.assemblyOperands = st.assemblyOperands := by
  unfold readDisp8Part at h
  split at h
  · obtain ⟨b, hb, h⟩ := except_bind_ok h
    cases h
    exact ⟨rfl, rfl, rfl⟩
  · cases h
    exact ⟨rfl, rfl, rfl⟩

theorem readDisp32Part_presAsm {buf : List Nat} {st st' : DState}
    (h : readDisp32Part buf st = .ok st') :
    st'.mnemonic = st.mnemonic ∧
    st'.assemblyInstruction = st.assemblyInstruction ∧
    st'.assemblyOperands = st.assemblyOperands := by
  unfold readDisp32Part at h
  split at h
  · obtain ⟨bs, hbs, h⟩ := except_bind_ok h
    cases h
    exact ⟨rfl, rfl, rfl⟩
  · cases h
    exact ⟨rfl, rfl, rfl⟩

theorem parseAddressOffset_presAsm {buf : List Nat} {st st' : DState}
    (h : parseAddressOffset buf st = .ok st') :
    st'.mnemonic = st.mnemonic ∧
    st'.assemblyInstruction = st.assemblyInstruction ∧
    st'.assemblyOperands = st.assemblyOperands := by
  unfold parseAddressOffset at h
  obtain ⟨st1, h1, h⟩ := except_bind_ok h
  obtain ⟨a1, b1, c1⟩ := readDisp8Part_presAsm h1
  obtain ⟨a2, b2, c2⟩ := readDisp32Part_presAsm h
  exact ⟨a2.trans a1, b2.trans b1, c2.trans c1⟩

theorem materializeOperand_presAsm {buf : List Nat} {st st' : DState}
    {operand : Operand}
    (h : materializeOperand buf st operand = .ok st') :
    st'.mnemonic = st.mnemonic ∧
    st'.assemblyInstruction = st.assemblyInstruction := by
  unfold materializeOperand at h
  split at h
  · cases h
    exact ⟨rfl, rfl⟩
  · split at h
    · cases h
      exact ⟨rfl, rfl⟩
    · split at h
      · obtain ⟨bs, hbs, h⟩ := except_bind_ok h
        cases h
        exact ⟨rfl, rfl⟩
      · cases h
        exact ⟨rfl, rfl⟩

theorem processOperands_presAsm {buf : List Nat} {ops : List Operand}
    {st st' : DState}
    (h : processOperands buf ops st = .ok st') :
    st'.mnemonic = st.mnemonic ∧
    st'.assemblyInstruction = st.assemblyInstruction := by
  induction ops generalizing st with
  | nil =>
    unfold processOperands at h
    cases h
    exact ⟨rfl, rfl⟩
  | cons o rest ih =>
    unfold processOperands at h
    obtain ⟨stm, hm, h⟩ := except_bind_ok h
    obtain ⟨a1, b1⟩ := materializeOperand_presAsm hm
    obtain ⟨a2, b2⟩ := ih h
    exact ⟨a2.trans a1, b2.trans b1⟩

/-- Claim C1: decoding the byte sequence B8 44 33 22 11 at start offset 0
succeeds with length 5, mnemonic MOV, and the rendered text is exactly the
golden string: a single leading space, then MOV, a double space, the
operand eax, a space, and the little-endian immediate printed as 0x plus
eight zero-padded hex digits. -/
theorem claim_C1 :
    resultOf (decodeSingleInstruction sampleOpLookup sampleOperandLookup
        [0xB8, 0x44, 0x33, 0x22, 0x11] DState.initial 0)
      = .ok (0, 5, "MOV", " MOV  eax 0x11223344") := rfl

/-- Claim C4 (refuting theorem): on buffers truncated at the prefix-alone,
REX-alone and opcode stages, decodeSingleInstruction does not produce an
UnexpectedEnd error; it indexes the byte vector past its end (C++
undefined behaviour, surfaced as outOfBoundsRead), whatever the encoding
tables are. -/
theorem claim_C4 (opL : OpLookupT) (operL : OperandLookupT) :
    decodeSingleInstruction opL operL [] DState.initial 0
      = .error (.outOfBoundsRead .prefixScan) ∧
    decodeSingleInstruction opL operL [0x66] DState.initial 0
      = .error (.outOfBoundsRead .rexScan) ∧
    decodeSingleInstruction opL operL [0x48] DState.initial 0
      = .error (.outOfBoundsRead .opcodeStage) :=
  ⟨rfl, rfl, rfl⟩

/-- Claim C5 (refuting theorem): the decode result is not a pure function
of the byte slice.  Decoding the slice at offset 8 of staleRexBuf (the two
bytes 01 00) yields different texts depending on which instruction an
earlier call on the same decoder state decoded: after the REX.B
instruction at offset 0 the text is ` ADD  [r8] eax`, after the REX.R
instruction at offset 4 it is ` ADD  [rax] r8d`, because State::init does
not reset the rex field. -/
theorem claim_C5 :
    (stateOf (decodeSingleInstruction sampleOpLookup sampleOperandLookup
        staleRexBuf DState.initial 0)).bind
      (fun st => textOf (decodeSingleInstruction sampleOpLookup
        sampleOperandLookup staleRexBuf st 8))
      = some " ADD  [r8] eax" ∧
    (stateOf (decodeSingleInstruction sampleOpLookup sampleOperandLookup
        staleRexBuf DState.initial 4)).bind
      (fun st => textOf (decodeSingleInstruction sampleOpLookup
        sampleOperandLookup staleRexBuf st 8))
      = some " ADD  [rax] r8d" ∧
    (" ADD  [r8] eax" : String) ≠ " ADD  [rax] r8d" :=
  ⟨rfl, rfl, by decide⟩

/-- Claim C6: for every successful decode, the reported startIdx is the
requested one and the reported length equals the exact number of bytes
consumed: the final cursor sits exactly length bytes past startIdx (the
byte the opcode resolver peeks is not counted unless a later stage
consumes it). -/
theorem claim_C6 (opL : OpLookupT) (operL : OperandLookupT)
    (buf : List Nat) (st0 : DState) (startIdx : Nat) :
    lenConsumedAgree
      (decodeSingleInstruction opL operL buf st0 startIdx) startIdx := by
  cases hdec : decodeSingleInstruction opL operL buf st0 startIdx with
  | error e => exact trivial
  | ok p =>
    obtain ⟨stf, s0, len, m, t⟩ := p
    show s0 = startIdx ∧ stf.curIdx = startIdx + len
    unfold decodeSingleInstruction at hdec
    obtain ⟨sta, ha, hdec⟩ := except_bind_ok hdec
    obtain ⟨stb, hb, hdec⟩ := except_bind_ok hdec
    obtain ⟨stc, hc, hdec⟩ := except_bind_ok hdec
    obtain ⟨std, hd, hdec⟩ := except_bind_ok hdec
    obtain ⟨ste, he, hdec⟩ := except_bind_ok hdec
    obtain ⟨stg, hg, hdec⟩ := except_bind_ok hdec
    obtain ⟨sth, hh, hdec⟩ := except_bind_ok hdec
    obtain ⟨sti, hi, hdec⟩ := except_bind_ok hdec
    have hadv : advancesBy { st0.init with curIdx := startIdx } sti :=
      advancesBy_trans (parsePrefixInstructions_advances ha)
        (advancesBy_trans (parsePrefix66_advances hb)
          (advancesBy_trans (parseREX_advances hc)
            (advancesBy_trans (parseOpecode_advances hd)
              (advancesBy_trans (parseModRM_advances he)
                (advancesBy_trans (parseSIB_advances hg)
                  (advancesBy_trans (parseAddressOffset_advances hh)
                    (processOperands_advances hi)))))))
    obtain ⟨k, hk1, hk2⟩ := hadv
    have hk1' : sti.curIdx = startIdx + k := hk1
    have hk2' : sti.instructionLen = 0 + k := hk2
    cases hdec
    exact ⟨rfl, by show sti.curIdx = startIdx + sti.instructionLen; omega⟩

/-- Claim C7: ModR/M presence is a function of the operand-encoding tag
alone — hasModrm is true exactly for M, MI, M1, MR, RM and RMI, and false
for I, D, O, NP and OI. -/
theorem claim_C7 (e : OpEnc) :
    hasModrm e = true ↔
      (e = .M ∨ e = .MI ∨ e = .M1 ∨ e = .MR ∨ e = .RM ∨ e = .RMI) := by
  cases e <;> simp [hasModrm]

/-- Claim C9: every successful decode renders its text as a single space,
the mnemonic, a space, then the space-prefixed operand tokens (so an
instruction with no operands ends with one trailing space); every mnemonic
string is made of uppercase letters and digits; and the single byte 0x90
decodes to mnemonic NOP with text ` NOP ` including the trailing space. -/
theorem claim_C9 :
    (∀ (opL : OpLookupT) (operL : OperandLookupT) (buf : List Nat)
      (st0 : DState) (startIdx : Nat),
        textShapeAgree
          (decodeSingleInstruction opL operL buf st0 startIdx)) ∧
    (∀ mn : Mnemonic,
      (mn.toStr.toList.all fun c => c.isUpper || c.isDigit) = true) ∧
    resultOf (decodeSingleInstruction sampleOpLookup sampleOperandLookup
        [0x90] DState.initial 0)
      = .ok (0, 1, "NOP", " NOP ") := by
  refine ⟨?_, by decide, rfl⟩
  intro opL operL buf st0 startIdx
  cases hdec : decodeSingleInstruction opL operL buf st0 startIdx with
  | error e => exact trivial
  | ok p =>
    obtain ⟨stf, s0, len, m, t⟩ := p
    show m = stf.mnemonic.toStr ∧ _
    unfold decodeSingleInstruction at hdec
    obtain ⟨sta, ha, hdec⟩ := except_bind_ok hdec
    obtain ⟨stb, hb, hdec⟩ := except_bind_ok hdec
    obtain ⟨stc, hc, hdec⟩ := except_bind_ok hdec
    obtain ⟨std, hd, hdec⟩ := except_bind_ok hdec
    obtain ⟨ste, he, hdec⟩ := except_bind_ok hdec
    obtain ⟨stg, hg, hdec⟩ := except_bind_ok hdec
    obtain ⟨sth, hh, hdec⟩ := except_bind_ok hdec
    obtain ⟨sti, hi, hdec⟩ := except_bind_ok hdec
    have hca : stc.assemblyInstruction = ([] : List String) :=
      ((parseREX_presAsm hc).2.1).trans
        (((parsePrefix66_presAsm hb).2.1).trans
          ((parsePrefixInstructions_presAsm ha).2.1))
    have hop := parseOpecode_asm hd
    have hmnchain : sti.mnemonic = std.mnemonic :=
      ((processOperands_presAsm hi).1).trans
        (((parseAddressOffset_presAsm hh).1).trans
          (((parseSIB_presAsm hg).1).trans ((parseModRM_presAsm he).1)))
    have haichain : sti.assemblyInstruction = std.assemblyInstruction :=
      ((processOperands_presAsm hi).2).trans
        (((parseAddressOffset_presAsm hh).2.1).trans
          (((parseSIB_presAsm hg).2.1).trans ((parseModRM_presAsm he).2.1)))
    have hasm : sti.assemblyInstruction = [sti.mnemonic.toStr] := by
      rw [haichain, hop.1, hca, hmnchain]
      rfl
    cases hdec
    refine ⟨rfl, ?_⟩
    show (sti.assemblyInstruction
        ++ [sti.assemblyOperands.foldl (fun acc a => acc ++ " " ++ a) ""]).foldl
          (fun acc a => acc ++ " " ++ a) ""
      = " " ++ sti.mnemonic.toStr ++ " "
        ++ sti.assemblyOperands.foldl (fun acc a => acc ++ " " ++ a) ""
    rw [hasm]
    rfl

theorem consumeOpcodeBytes_oneByte {buf : List Nat} {st : DState} {b : Nat}
    (h1 : buf.get? st.curIdx = some b)
    (h2 : TWO_BYTES_OPCODE_PREFIX.contains b = false) :
    consumeOpcodeBytes buf st = .ok { st with
      opcodeByte := (b : Int)
      instructionLen := st.instructionLen + 1
      curIdx := st.curIdx + 1 } := by
  unfold consumeOpcodeBytes readByte
  rw [h1]
  show (if TWO_BYTES_OPCODE_PREFIX.contains b = true then _ else _) = _
  rw [h2]
  rfl

theorem consumeOpcodeBytes_twoByte {buf : List Nat} {st : DState} {b2 : Nat}
    (h1 : buf.get? st.curIdx = some 0x0F)
    (h2 : buf.get? (st.curIdx + 1) = some b2) :
    consumeOpcodeBytes buf st = .ok { st with
      opcodeByte := (0x0F : Int) * 256 + (b2 : Int)
      instructionLen := st.instructionLen + 1 + 1
      curIdx := st.curIdx + 1 + 1 } := by
  unfold consumeOpcodeBytes readByte
  rw [h1]
  show (Bind.bind (match buf.get? (st.curIdx + 1) with
    | some b => Except.ok b
    | none => Except.error (Err.outOfBoundsRead .opcodeStage)) _) = _
  rw [h2]
  rfl

theorem parseOpecode_after_consume {opL : OpLookupT} {operL : OperandLookupT}
    {buf : List Nat} {st stc : DState}
    (h : consumeOpcodeBytes buf st = .ok stc) :
    parseOpecode opL operL buf st =
      match opLookupChain opL stc.prefixClass stc.opcodeByte with
      | .error e => .error e
      | .ok (reg2mnem, pfx2) =>
        lookupOperandTemplate operL
          (selectMnemonic reg2mnem buf { stc with prefixClass := pfx2 }) := by
  unfold parseOpecode
  rw [h]
  rfl

theorem opLookupChain_error {opL : OpLookupT} {p : PrefixClass} {op : Int}
    {e : Err} (h : opLookupChain opL p op = .error e) :
    e = .unknownOpcode p op := by
  unfold opLookupChain at h
  split at h
  · exact Except.noConfusion h
  · split at h
    · split at h
      · exact Except.noConfusion h
      · cases h
        rfl
    · split at h
      · split at h
        · exact Except.noConfusion h
        · cases h
          rfl
      · cases h
        rfl

theorem opLookupChain_hit {opL : OpLookupT} {p : PrefixClass} {op : Int}
    {r : Reg2Mnem} (h : lookupA opL (p, op) = some r) :
    opLookupChain opL p op = .ok (r, p) := by
  unfold opLookupChain
  rw [h]

theorem selectMnemonic_opcodeByte (reg2mnem : Reg2Mnem) (buf : List Nat)
    (st : DState) :
    (selectMnemonic reg2mnem buf st).opcodeByte = st.opcodeByte := by
  unfold selectMnemonic
  cases buf.get? st.curIdx <;> rfl

theorem lookupOperandTemplate_opcodeOf (operL : OperandLookupT)
    (st : DState) :
    opcodeOf (lookupOperandTemplate operL st) = some st.opcodeByte := by
  unfold lookupOperandTemplate
  split
  · rfl
  · rfl

theorem lookupOperandTemplate_mnemonicOf (operL : OperandLookupT)
    (st : DState) :
    mnemonicOf (lookupOperandTemplate operL st) = some st.mnemonic := by
  unfold lookupOperandTemplate
  split
  · rfl
  · rfl

theorem selectMnemonic_defaultMov {reg2mnem : Reg2Mnem} {buf : List Nat}
    {st : DState} {mb : Nat}
    (hp : buf.get? st.curIdx = some mb)
    (h5 : lookupA reg2mnem (getRegVal ((mb : Nat) : Int)) = none)
    (h6 : lookupA reg2mnem (-1) = none) :
    (selectMnemonic reg2mnem buf st).mnemonic = .MOV := by
  unfold selectMnemonic
  rw [hp]
  show (if ((mb : Nat) : Int) ≥ 0 then
      (match lookupA reg2mnem (getRegVal ((mb : Nat) : Int)) with
        | some m => m
        | none => mapIndexDefault reg2mnem (-1))
    else mapIndexDefault reg2mnem (-1)) = Mnemonic.MOV
  rw [if_pos (Int.natCast_nonneg mb), h5]
  show mapIndexDefault reg2mnem (-1) = Mnemonic.MOV
  unfold mapIndexDefault
  rw [h6]
  rfl

/-- Claim C2 (counterexample): the escape byte 0x0F IS consumed by the
prefix-scanning stage — on the buffer [0x0F] at offset 0,
parsePrefixInstructions records it as the prefix-instruction byte and
advances the cursor and the length by one, contradicting the claim that
0x0F is not consumed by this stage. -/
theorem claim_C2_counterexample :
    (parsePrefixInstructions [0x0F] DState.initial).map
        (fun st => (st.curIdx, st.prefixInstructionByte, st.instructionLen))
      = .ok (1, 0x0F, 1) := rfl

/-- Claim C2 (amended): 0x0F is in PREFIX_INSTRUCTIONS_BYTES_SET, so the
prefix-scanning stage consumes it whenever it is the current byte at the
start of an instruction; and whenever the byte the opcode-resolving stage
sees first is 0x0F, it consumes a second byte and forms the 16-bit opcode
(0x0F << 8) | second before table lookup (the opcode it then works with —
in the resolved state or in the lookup error — is that combined value). -/
theorem claim_C2 :
    (∀ (buf : List Nat) (st : DState),
      buf.get? st.curIdx = some 0x0F →
        (parsePrefixInstructions buf st).map
            (fun s => (s.curIdx, s.prefixInstructionByte))
          = .ok (st.curIdx + 1, 0x0F)) ∧
    (∀ (opL : OpLookupT) (operL : OperandLookupT) (buf : List Nat)
        (st : DState) (b2 : Nat),
      buf.get? st.curIdx = some 0x0F →
      buf.get? (st.curIdx + 1) = some b2 →
        opcodeOf (parseOpecode opL operL buf st)
          = some ((0x0F : Int) * 256 + (b2 : Int))) := by
  constructor
  · intro buf st h
    unfold parsePrefixInstructions readByte
    rw [h]
    rfl
  · intro opL operL buf st b2 h1 h2
    rw [parseOpecode_after_consume (consumeOpcodeBytes_twoByte h1 h2)]
    split
    · rename_i e heq
      rw [opLookupChain_error heq]
      rfl
    · rw [lookupOperandTemplate_opcodeOf, selectMnemonic_opcodeByte]

theorem claim_C2_witness :
    (parsePrefixInstructions [0x0F] DState.initial).map
        (fun s => (s.curIdx, s.prefixInstructionByte)) = .ok (1, 0x0F) ∧
    opcodeOf (parseOpecode [] [] [0x0F, 0xAF] DState.initial)
      = some ((0x0F : Int) * 256 + ((0xAF : Nat) : Int)) :=
  ⟨claim_C2.1 [0x0F] DState.initial rfl,
   claim_C2.2 [] [] [0x0F, 0xAF] DState.initial 0xAF rfl rfl⟩

/-- Claim C3 (counterexample): with tables whose 0x90 row exists only
under the NONE class, decoding 48 90 (REX.W then 0x90) fails with
UnknownOpcode under REXW: the fallback stops after the REX retry and never
reaches the NONE row, contradicting the claim that a key missing REXW and
REX still succeeds when a NONE row exists. -/
theorem claim_C3_counterexample :
    lookupA sampleOpLookup (PrefixClass.NONE, (0x90 : Int))
        = some [((-1 : Int), Mnemonic.NOP)] ∧
    decodeSingleInstruction sampleOpLookup sampleOperandLookup [0x48, 0x90]
        DState.initial 0
      = .error (.unknownOpcode .REXW 0x90) :=
  ⟨rfl, rfl⟩

/-- Claim C3 (amended): the fallback is single-step.  A REXW key missing
its own row retries only REX (downgrading the class on success); a REX key
missing its own row retries only NONE (downgrading on success); and a REXW
key whose REXW and REX rows both miss is UnknownOpcode regardless of any
NONE row. -/
theorem claim_C3 :
    (∀ (opL : OpLookupT) (op : Int) (r : Reg2Mnem),
      lookupA opL (.REXW, op) = none → lookupA opL (.REX, op) = some r →
        opLookupChain opL .REXW op = .ok (r, .REX)) ∧
    (∀ (opL : OpLookupT) (op : Int) (r : Reg2Mnem),
      lookupA opL (.REX, op) = none → lookupA opL (.NONE, op) = some r →
        opLookupChain opL .REX op = .ok (r, .NONE)) ∧
    (∀ (opL : OpLookupT) (op : Int),
      lookupA opL (.REXW, op) = none → lookupA opL (.REX, op) = none →
        opLookupChain opL .REXW op = .error (.unknownOpcode .REXW op)) := by
  refine ⟨?_, ?_, ?_⟩
  · intro opL op r h1 h2
    unfold opLookupChain
    rw [h1, h2]
    rfl
  · intro opL op r h1 h2
    unfold opLookupChain
    rw [h1, h2]
    rfl
  · intro opL op h1 h2
    unfold opLookupChain
    rw [h1, h2]
    rfl

theorem claim_C3_witness :
    opLookupChain rexRowLookup .REXW (0x90 : Int)
        = .ok ([((-1 : Int), .NOP)], .REX) ∧
    opLookupChain noneRowLookup .REX (0x90 : Int)
        = .ok ([((-1 : Int), .NOP)], .NONE) ∧
    opLookupChain noneRowLookup .REXW (0x90 : Int)
        = .error (.unknownOpcode .REXW 0x90) :=
  ⟨claim_C3.1 rexRowLookup 0x90 [((-1 : Int), .NOP)] rfl rfl,
   claim_C3.2.1 noneRowLookup 0x90 [((-1 : Int), .NOP)] rfl rfl,
   claim_C3.2.2 noneRowLookup 0x90 rfl rfl⟩

/-- Claim C8: whenever the disp8 condition of parseAddressOffset holds the
reader consumes exactly one byte and renders it as its unsigned decimal
string; whenever the disp32 condition holds it consumes exactly four bytes
little-endian and renders 0x plus eight zero-padded hex digits of the four
bytes reversed from buffer order; when a condition is false its block
consumes nothing, and the disp8 block's update leaves the disp32 condition
unchanged. -/
theorem claim_C8 :
    (∀ (buf : List Nat) (st : DState) (b : Nat),
      disp8Cond st = true → buf.get? st.curIdx = some b →
        readDisp8Part buf st = .ok { st with
          disp8 := toString b
          hasDisp8 := true
          instructionLen := st.instructionLen + 1
          curIdx := st.curIdx + 1 }) ∧
    (∀ (buf : List Nat) (st : DState),
      disp32Cond st = true → st.curIdx + 4 ≤ buf.length →
        readDisp32Part buf st = .ok { st with
          disp32 := "0x" ++ hexOfBytes (((buf.drop st.curIdx).take 4).reverse)
          hasDisp32 := true
          instructionLen := st.instructionLen + 4
          curIdx := st.curIdx + 4 }) ∧
    (∀ (buf : List Nat) (st : DState),
      disp8Cond st = false → readDisp8Part buf st = .ok st) ∧
    (∀ (buf : List Nat) (st : DState),
      disp32Cond st = false → readDisp32Part buf st = .ok st) ∧
    (∀ (st : DState) (b : Nat),
      disp32Cond { st with
          disp8 := toString b
          hasDisp8 := true
          instructionLen := st.instructionLen + 1
          curIdx := st.curIdx + 1 }
        = disp32Cond st) := by
  refine ⟨?_, ?_, ?_, ?_, ?_⟩
  · intro buf st b hc hr
    unfold readDisp8Part readByte
    rw [hc]
    show (if true = true then _ else _) = _
    rw [if_pos rfl, hr]
    rfl
  · intro buf st hc hlen
    unfold readDisp32Part readBytes
    rw [hc]
    show (if true = true then _ else _) = _
    rw [if_pos rfl, if_pos hlen]
    rfl
  · intro buf st hc
    unfold readDisp8Part
    rw [hc]
    rfl
  · intro buf st hc
    unfold readDisp32Part
    rw [hc]
    rfl
  · intro st b
    rfl

theorem claim_C8_witness :
    readDisp8Part [5] disp8State = .ok { disp8State with
      disp8 := toString (5 : Nat)
      hasDisp8 := true
      instructionLen := disp8State.instructionLen + 1
      curIdx := disp8State.curIdx + 1 } ∧
    readDisp32Part [0, 0x80, 0, 0] disp32State = .ok { disp32State with
      disp32 := "0x"
        ++ hexOfBytes ((([0, 0x80, 0, 0].drop disp32State.curIdx).take 4).reverse)
      hasDisp32 := true
      instructionLen := disp32State.instructionLen + 4
      curIdx := disp32State.curIdx + 4 } ∧
    readDisp8Part [] DState.initial = .ok DState.initial ∧
    readDisp32Part [] DState.initial = .ok DState.initial :=
  ⟨claim_C8.1 [5] disp8State 5 rfl rfl,
   claim_C8.2.1 [0, 0x80, 0, 0] disp32State rfl (by decide),
   claim_C8.2.2.1 [] DState.initial rfl,
   claim_C8.2.2.2.1 [] DState.initial rfl⟩

/-- Claim C10: when the opcode row is found but maps neither the decoded
ModR/M reg digit nor the wildcard -1, the resolver raises no error at the
mnemonic-selection step: the C++ operator[] on the missing wildcard key
value-initializes Mnemonic, yielding its first enumerator MOV, which is
used as the decoded mnemonic (visible in the success state or in the
operand-form error raised afterwards). -/
theorem claim_C10 (opL : OpLookupT) (operL : OperandLookupT)
    (buf : List Nat) (st : DState) (b mb : Nat) (r : Reg2Mnem)
    (h1 : buf.get? st.curIdx = some b)
    (h2 : TWO_BYTES_OPCODE_PREFIX.contains b = false)
    (h3 : lookupA opL (st.prefixClass, (b : Int)) = some r)
    (h4 : buf.get? (st.curIdx + 1) = some mb)
    (h5 : lookupA r (getRegVal ((mb : Nat) : Int)) = none)
    (h6 : lookupA r (-1) = none) :
    mnemonicOf (parseOpecode opL operL buf st) = some .MOV := by
  rw [parseOpecode_after_consume (consumeOpcodeBytes_oneByte h1 h2)]
  rw [opLookupChain_hit h3]
  rw [lookupOperandTemplate_mnemonicOf]
  rw [selectMnemonic_defaultMov h4 h5 h6]

theorem claim_C10_witness :
    mnemonicOf (parseOpecode digitOnlyLookup [] [0x99, 0x00]
        DState.initial)
      = some .MOV :=
  claim_C10 digitOnlyLookup [] [0x99, 0x00] DState.initial 0x99 0x00
    [((3 : Int), .SUB)] rfl rfl rfl rfl rfl rfl

end MyDisassembler
